import Mathlib

/-!
# go-stripe: HTTP handlers over the Stripe SDK

A shallow embedding of the two handler files of the repository,
`src/api/index.go` (namespace `ApiIndex`) and `src/handler.go` (namespace
`HandlerGo`).  Both files define `Handler`, `createCheckoutSession`,
`createPortalSession` and `handleWebhook`.

The handlers are glue code around calls into libraries that are not part of
the repository (`net/http`, `encoding/json`, `stripe-go`).  Those calls are
modelled as follows.

* The Stripe SDK and `json.Unmarshal` are an oracle, `Vendor`: a record of
  functions giving the result of every library call.  Theorems quantify over
  every `Vendor`.
* The effects of a handler are recorded, in program order, as a list of
  `Effect`s: each library call made, each log line, and each call that writes
  to the `http.ResponseWriter`.
* A Go pointer that may be `nil` is an `Option`; dereferencing `none` is a
  run-time panic, after which the handler writes nothing more.
-/

namespace GoStripe

/-! ## Data model -/

/-- The part of `stripe.Price` that the handlers read. -/
structure Price where
  ID : String
deriving DecidableEq, Repr

/-- The part of `stripe.Customer` that the handlers read. -/
structure Customer where
  ID : String
deriving DecidableEq, Repr

/-- The part of `stripe.CheckoutSession` that the handlers read.  `Customer` is
a pointer (`*stripe.Customer`) in the SDK and is `nil` when the session has no
customer attached. -/
structure CheckoutSession where
  ID : String
  URL : String
  Customer : Option Customer
deriving DecidableEq, Repr

/-- The part of `stripe.BillingPortalSession` that the handlers read. -/
structure BillingPortalSession where
  URL : String
deriving DecidableEq, Repr

/-- The part of `stripe.EventData` that the handlers read: the raw JSON of the
event object. -/
structure EventData where
  Raw : List UInt8
deriving DecidableEq, Repr

/-- The part of `stripe.Event` that the handlers read; `Type_` is the field
`Type`.  `Data` is a pointer (`*stripe.EventData`) in the SDK. -/
structure Event where
  Type_ : String
  Data : Option EventData
deriving DecidableEq, Repr

/-- The part of `stripe.Subscription` that the handlers read. -/
structure Subscription where
  ID : String
deriving DecidableEq, Repr

/-- The fields of `stripe.PriceListParams` that the handlers set. -/
structure PriceListParams where
  LookupKeys : List String
deriving DecidableEq, Repr

/-- The fields of `stripe.CheckoutSessionLineItemParams` that the handlers set. -/
structure CheckoutSessionLineItemParams where
  Price : String
  Quantity : Int
deriving DecidableEq, Repr

/-- The fields of `stripe.CheckoutSessionSubscriptionDataParams` that the handlers set. -/
structure CheckoutSessionSubscriptionDataParams where
  BillingCycleAnchor : Int
deriving DecidableEq, Repr

/-- The fields of `stripe.CheckoutSessionAutomaticTaxParams` that the handlers set. -/
structure CheckoutSessionAutomaticTaxParams where
  Enabled : Bool
deriving DecidableEq, Repr

/-- The fields of `stripe.CheckoutSessionParams` that the handlers set. -/
structure CheckoutSessionParams where
  Mode : String
  LineItems : List CheckoutSessionLineItemParams
  SubscriptionData : CheckoutSessionSubscriptionDataParams
  SuccessURL : String
  CancelURL : String
  AutomaticTax : CheckoutSessionAutomaticTaxParams
deriving DecidableEq, Repr

/-- The fields of `stripe.BillingPortalSessionParams` that the handlers set. -/
structure BillingPortalSessionParams where
  Customer : String
  ReturnURL : String
deriving DecidableEq, Repr

/-- The library calls outside the repository, as an oracle.  `priceList` gives
the sequence of prices that the iterator returned by `price.List` yields (an
iterator that stops on an error yields the prices before the error). -/
structure Vendor where
  priceList : PriceListParams → List Price
  sessionNew : CheckoutSessionParams → Except String CheckoutSession
  sessionGet : String → Except String CheckoutSession
  portalsessionNew : BillingPortalSessionParams → Except String BillingPortalSession
  ConstructEvent : List UInt8 → String → String → Except String Event
  jsonUnmarshal : List UInt8 → Except String Subscription

/-- The part of `http.Request` that the handlers read.  `PostForm` is what
`r.ParseForm()` leaves in `r.PostForm`; `Body` is the byte stream of the request
body and `BodyErr` the transport error that ends it, if it does not end in EOF. -/
structure Request where
  Method : String
  Path : String
  PostForm : List (String × String)
  Header : List (String × String)
  Body : List UInt8
  BodyErr : Option String
deriving DecidableEq, Repr

/-- The first value of a form field, or the empty string: `r.PostFormValue(key)`. -/
def Request.PostFormValue (r : Request) (key : String) : String :=
  match r.PostForm.lookup key with
  | some v => v
  | none => ""

/-- The first value of a header, or the empty string: `r.Header.Get(key)`. -/
def Request.HeaderGet (r : Request) (key : String) : String :=
  match r.Header.lookup key with
  | some v => v
  | none => ""

/-- Result of `io.ReadAll(http.MaxBytesReader(w, req.Body, n))`: the read fails
when the body holds more than `n` bytes, or when the transport fails. -/
def readAllMaxBytes (r : Request) (n : Nat) : Except String (List UInt8) :=
  if r.Body.length > n then .error "http: request body too large"
  else
    match r.BodyErr with
    | some e => .error e
    | none => .ok r.Body

/-- One observable action of a handler. -/
inductive Effect where
  | priceList (params : PriceListParams)
  | sessionNew (params : CheckoutSessionParams)
  | sessionGet (id : String)
  | portalsessionNew (params : BillingPortalSessionParams)
  | ConstructEvent (payload : List UInt8) (header : String) (secret : String)
  | jsonUnmarshal (raw : List UInt8)
  | logPrintf (format : String) (args : List String)
  | slogInfo (msg : String) (args : List String)
  | fmtPrint (arg : String)
  | stderr (format : String) (args : List String)
  | headerSet (key : String) (value : String)
  | write (body : String)
  | writeHeader (code : Nat)
  | httpError (msg : String) (code : Nat)
  | httpRedirect (url : String) (code : Nat)
  | httpNotFound
deriving DecidableEq, Repr

/-- The run of a handler: its effects in program order, and whether it ended in
a run-time panic instead of returning. -/
structure Run where
  trace : List Effect
  panicked : Bool
deriving DecidableEq, Repr

/-- How a block of statements ends: control falls through to the next
statement, the function returns, or the goroutine panics. -/
inductive Exit where
  | next
  | ret
  | panic
deriving DecidableEq, Repr

/-- The run of a block of statements inside a handler. -/
structure Step where
  trace : List Effect
  exit : Exit
deriving DecidableEq, Repr

/-- The status codes written to the response, in order.  `http.Error`,
`http.Redirect`, `http.NotFound` and `w.WriteHeader` write the status they are
given; `w.Write` writes an implicit 200 when no status was written before. -/
def statusesFrom (wrote : Bool) : List Effect → List Nat
  | [] => []
  | .httpError _ c :: t => c :: statusesFrom true t
  | .httpRedirect _ c :: t => c :: statusesFrom true t
  | .writeHeader c :: t => c :: statusesFrom true t
  | .httpNotFound :: t => 404 :: statusesFrom true t
  | .write _ :: t => if wrote then statusesFrom true t else 200 :: statusesFrom true t
  | .priceList _ :: t => statusesFrom wrote t
  | .sessionNew _ :: t => statusesFrom wrote t
  | .sessionGet _ :: t => statusesFrom wrote t
  | .portalsessionNew _ :: t => statusesFrom wrote t
  | .ConstructEvent _ _ _ :: t => statusesFrom wrote t
  | .jsonUnmarshal _ :: t => statusesFrom wrote t
  | .logPrintf _ _ :: t => statusesFrom wrote t
  | .slogInfo _ _ :: t => statusesFrom wrote t
  | .fmtPrint _ :: t => statusesFrom wrote t
  | .stderr _ _ :: t => statusesFrom wrote t
  | .headerSet _ _ :: t => statusesFrom wrote t

/-- The status codes a run wrote to the response. -/
def Run.statuses (r : Run) : List Nat := statusesFrom false r.trace

/-- Whether an effect is a call to the Stripe API (`price.List`, `session.New`,
`session.Get`, `portalsession.New`). -/
def Effect.isVendorCall : Effect → Bool
  | .priceList _ => true
  | .sessionNew _ => true
  | .sessionGet _ => true
  | .portalsessionNew _ => true
  | _ => false

/-- Whether an effect is a call to `webhook.ConstructEvent`. -/
def Effect.isConstructEvent : Effect → Bool
  | .ConstructEvent _ _ _ => true
  | _ => false

/-- Whether an effect is one that an arm of the event-type switch of
`handleWebhook` performs first: every recognized arm starts with
`json.Unmarshal`, and the default arm with a line on standard error that starts
`Unhandled event type`. -/
def Effect.isSwitchEntry : Effect → Bool
  | .jsonUnmarshal _ => true
  | .stderr format _ => format == "Unhandled event type: %s\n"
  | _ => false

/-- The redirect targets (`Location`) a run passed to `http.Redirect`. -/
def Run.locations (r : Run) : List String :=
  r.trace.filterMap fun e =>
    match e with
    | .httpRedirect url _ => some url
    | _ => none

/-- The messages a run passed to `http.Error`, which sends them as the body. -/
def Run.errorBodies (r : Run) : List String :=
  r.trace.filterMap fun e =>
    match e with
    | .httpError msg _ => some msg
    | _ => none

/-- The checkout requests a run submitted to `session.New`. -/
def Run.submitted (r : Run) : List CheckoutSessionParams :=
  r.trace.filterMap fun e =>
    match e with
    | .sessionNew params => some params
    | _ => none

/-! ## Constants of `net/http` and of the SDK -/

def StatusOK : Nat := 200
def StatusSeeOther : Nat := 303
def StatusBadRequest : Nat := 400
def StatusMethodNotAllowed : Nat := 405
def StatusInternalServerError : Nat := 500
def StatusServiceUnavailable : Nat := 503

/-- The text of a status code: `http.StatusText`, on the codes used here. -/
def StatusText (code : Nat) : String :=
  if code = 200 then "OK"
  else if code = 303 then "See Other"
  else if code = 400 then "Bad Request"
  else if code = 404 then "Not Found"
  else if code = 405 then "Method Not Allowed"
  else if code = 500 then "Internal Server Error"
  else if code = 503 then "Service Unavailable"
  else ""

/-- The SDK constant `stripe.CheckoutSessionModeSubscription`. -/
def CheckoutSessionModeSubscription : String := "subscription"

/-- The iterator returned by `price.List`: the current value and the values not
yet yielded. -/
structure Iter where
  cur : Option Price
  values : List Price
deriving DecidableEq, Repr

/-- Advance the iterator: `i.Next()`.  Returns whether a value was available. -/
def Iter.Next (i : Iter) : Bool × Iter :=
  match i.values with
  | [] => (false, i)
  | p :: ps => (true, { cur := some p, values := ps })

/-- The current value of the iterator: `i.Price()`. -/
def Iter.Price (i : Iter) : Option Price := i.cur

/-- Replace every non-overlapping occurrence of `old` by `new`, scanning from the
left; `skip` counts the characters of a matched occurrence still to drop. -/
def replaceChars (old new : List Char) : Nat → List Char → List Char
  | _, [] => []
  | skip + 1, _ :: cs => replaceChars old new skip cs
  | 0, c :: cs =>
    if old.isPrefixOf (c :: cs) then new ++ replaceChars old new (old.length - 1) cs
    else c :: replaceChars old new 0 cs

/-- The library call `strings.Replace(s, old, new, -1)` for a non-empty `old`. -/
def stringsReplaceAll (s old new : String) : String :=
  String.mk (replaceChars old.data new.data 0 s.data)

end GoStripe

namespace GoStripe

/-! ## `src/api/index.go` -/

namespace ApiIndex

/-- The page served at `/`: the literal `htmlContent` of `Handler`. -/
def htmlContent : String :=
  "\n"
  ++ "\t<!DOCTYPE html>\n"
  ++ "\t<html lang=\"en\">\n"
  ++ "\t<head>\n"
  ++ "\t\t<meta charset=\"UTF-8\">\n"
  ++ "\t\t<meta name=\"viewport\" content=\"width=device-width, initial-scale=1.0\">\n"
  ++ "\t\t<title>Stripe Payment Test</title>\n"
  ++ "\t</head>\n"
  ++ "\t<body>\n"
  ++ "\t\t<h1>Welcome to Stripe Payment Test</h1>\n"
  ++ "\t\t<button id=\"payButton\">Pay with Stripe</button>\n"
  ++ "\t\n"
  ++ "\t\t<script>\n"
  ++ "\t\t\tdocument.getElementById(\x27payButton\x27).addEventListener(\x27click\x27, function() \x7b\n"
  ++ "\t\t\t\tfetch(\x27/create-checkout-session\x27, \x7b\n"
  ++ "\t\t\t\t\tmethod: \x27POST\x27,\n"
  ++ "\t\t\t\t\theaders: \x7b\n"
  ++ "\t\t\t\t\t\t\x27Content-Type\x27: \x27application/x-www-form-urlencoded\x27,\n"
  ++ "\t\t\t\t\t\x7d,\n"
  ++ "\t\t\t\t\tbody: \x27lookup_key=prod_RSME4fcFjlrqA4\x27\n"
  ++ "\t\t\t\t\x7d).then(function(response) \x7b\n"
  ++ "\t\t\t\t\treturn response.json();\n"
  ++ "\t\t\t\t\x7d).then(function(session) \x7b\n"
  ++ "\t\t\t\t\twindow.location.href = session.url; // Redirect to Stripe checkout page\n"
  ++ "\t\t\t\t\x7d).catch(function(error) \x7b\n"
  ++ "\t\t\t\t\tconsole.error(\x27Error:\x27, error);\n"
  ++ "\t\t\t\t\x7d);\n"
  ++ "\t\t\t\x7d);\n"
  ++ "\t\t</script>\n"
  ++ "\t</body>\n"
  ++ "\t</html>\n"
  ++ "\t"

/-- The checkout request built by `createCheckoutSession` for a price. -/
def checkoutParamsFor (domain : String) (price : Price) : CheckoutSessionParams :=
  { Mode := CheckoutSessionModeSubscription
    LineItems := [{ Price := price.ID, Quantity := 1 }]
    SubscriptionData := { BillingCycleAnchor := 1672531200 }
    SuccessURL := domain ++ "/success.html?session_id=\x7bCHECKOUT_SESSION_ID\x7d"
    CancelURL := domain ++ "/cancel.html"
    AutomaticTax := { Enabled := true } }

/-- The function `createCheckoutSession` of `src/api/index.go`. -/
def createCheckoutSession (V : Vendor) (r : Request) : Run :=
  if r.Method ≠ "POST" then
    { trace := [.httpError (StatusText StatusMethodNotAllowed) StatusMethodNotAllowed]
      panicked := false }
  else
    let lookup_key := r.PostFormValue "lookup_key"
    let domain := "https://go-stripe.vercel.app"
    let params : PriceListParams := { LookupKeys := [lookup_key] }
    let i : Iter := { cur := none, values := V.priceList params }
    let t1 := [Effect.priceList params]
    let (ok, i) := i.Next
    if !ok then
      { trace := t1 ++
          [.logPrintf (">>>>>>>>>>>>>>>>>>>>>>>>>>> Add a price lookup key to checkout.html " ++
              "line 27 for the demo <<<<<<<<<<<<<<<<<<<<<<<<") [],
           .httpError "Price not found" StatusBadRequest]
        panicked := false }
    else
      match i.Price with
      | none => { trace := t1, panicked := true }
      | some price =>
        let checkoutParams := checkoutParamsFor domain price
        let t2 := t1 ++ [Effect.sessionNew checkoutParams]
        match V.sessionNew checkoutParams with
        | .error err =>
          { trace := t2 ++
              [.logPrintf "session.New: %v" [err],
               .httpError "Failed to create checkout session" StatusInternalServerError]
            panicked := false }
        | .ok s =>
          -- Correctly replace {CHECKOUT_SESSION_ID} with the actual ID
          let updatedSuccessURL :=
            stringsReplaceAll checkoutParams.SuccessURL "\x7bCHECKOUT_SESSION_ID\x7d" s.ID
          let _checkoutParams := { checkoutParams with SuccessURL := updatedSuccessURL }
          { trace := t2 ++ [.httpRedirect s.URL StatusSeeOther], panicked := false }

/-- The function `createPortalSession` of `src/api/index.go`. -/
def createPortalSession (V : Vendor) (r : Request) : Run :=
  let domain := "https://go-stripe.vercel.app/"
  let sessionId := r.PostFormValue "session_id"
  let t1 := [Effect.slogInfo "createPortalSession" ["sessionId", sessionId],
             Effect.sessionGet sessionId]
  match V.sessionGet sessionId with
  | .error err =>
    { trace := t1 ++
        [.httpError err StatusInternalServerError, .logPrintf "session.Get: %v" [err]]
      panicked := false }
  | .ok s =>
    -- Authenticate your user.
    match s.Customer with
    | none => { trace := t1, panicked := true }
    | some customer =>
      let params : BillingPortalSessionParams := { Customer := customer.ID, ReturnURL := domain }
      let t2 := t1 ++ [Effect.portalsessionNew params]
      match V.portalsessionNew params with
      | .error err =>
        { trace := t2 ++
            [.httpError err StatusInternalServerError, .logPrintf "ps.New: %v" [err]]
          panicked := false }
      | .ok ps =>
        { trace := t2 ++
            [.logPrintf "ps.New: %v" [ps.URL], .httpRedirect ps.URL StatusSeeOther]
          panicked := false }

/-- The limit `MaxBodyBytes` of `handleWebhook`. -/
def MaxBodyBytes : Nat := 65536

/-- One recognized arm of the event-type switch of `handleWebhook`: decode
`event.Data.Raw` into a subscription and log its ID with `format`; on a decoding
error write 400 and return. -/
def subscriptionCase (V : Vendor) (event : Event) (format : String) : Step :=
  match event.Data with
  | none => { trace := [], exit := .panic }
  | some data =>
    match V.jsonUnmarshal data.Raw with
    | .error err =>
      { trace :=
          [.jsonUnmarshal data.Raw,
           .stderr "Error parsing webhook JSON: %v\n" [err],
           .writeHeader StatusBadRequest]
        exit := .ret }
    | .ok subscription =>
      { trace := [.jsonUnmarshal data.Raw, .logPrintf format [subscription.ID]]
        exit := .next }

/-- The event-type switch of `handleWebhook`. -/
def eventSwitch (V : Vendor) (event : Event) : Step :=
  if event.Type_ = "customer.subscription.deleted" then
    subscriptionCase V event "Subscription deleted for %s."
  else if event.Type_ = "customer.subscription.updated" then
    subscriptionCase V event "Subscription updated for %s."
  else if event.Type_ = "customer.subscription.created" then
    subscriptionCase V event "Subscription created for %s."
  else if event.Type_ = "customer.subscription.trial_will_end" then
    subscriptionCase V event "Subscription trial will end for %s."
  else if event.Type_ = "entitlements.active_entitlement_summary.updated" then
    subscriptionCase V event "Active entitlement summary updated for %s."
  else
    { trace := [.stderr "Unhandled event type: %s\n" [event.Type_]], exit := .next }

/-- The function `handleWebhook` of `src/api/index.go`. -/
def handleWebhook (V : Vendor) (req : Request) : Run :=
  match readAllMaxBytes req MaxBodyBytes with
  | .error err =>
    { trace :=
        [.stderr "Error reading request body: %v\n" [err],
         .writeHeader StatusServiceUnavailable]
      panicked := false }
  | .ok payload =>
    let endpointSecret := "whsec_12345"
    let signatureHeader := req.HeaderGet "Stripe-Signature"
    let t1 := [Effect.ConstructEvent payload signatureHeader endpointSecret]
    match V.ConstructEvent payload signatureHeader endpointSecret with
    | .error err =>
      { trace := t1 ++
          [.stderr "⚠️  Webhook signature verification failed. %v\n" [err],
           .writeHeader StatusBadRequest]
        panicked := false }
    | .ok event =>
      -- Unmarshal the event data into an appropriate struct depending on its Type
      let sw := eventSwitch V event
      match sw.exit with
      | .panic => { trace := t1 ++ sw.trace, panicked := true }
      | .ret => { trace := t1 ++ sw.trace, panicked := false }
      | .next => { trace := t1 ++ sw.trace ++ [.writeHeader StatusOK], panicked := false }

/-- The function `Handler` of `src/api/index.go`: dispatch on `r.URL.Path`.  The
assignment to `stripe.Key` that precedes the switch sets the API key used by the
SDK; it is part of the vendor oracle and leaves no effect. -/
def Handler (V : Vendor) (r : Request) : Run :=
  if r.Path = "/" then
    { trace := [.headerSet "Content-Type" "text/html", .write htmlContent], panicked := false }
  else if r.Path = "/create-checkout-session" then createCheckoutSession V r
  else if r.Path = "/create-portal-session" then createPortalSession V r
  else if r.Path = "/webhook" then handleWebhook V r
  else { trace := [.httpNotFound], panicked := false }

end ApiIndex

end GoStripe

namespace GoStripe

/-! ## `src/handler.go` -/

namespace HandlerGo

/-- The checkout request built by `createCheckoutSession` for a price. -/
def checkoutParamsFor (domain : String) (price : Price) : CheckoutSessionParams :=
  { Mode := CheckoutSessionModeSubscription
    LineItems := [{ Price := price.ID, Quantity := 1 }]
    SubscriptionData := { BillingCycleAnchor := 1672531200 }
    SuccessURL := domain ++ "/success.html?session_id=\x7bCHECKOUT_SESSION_ID\x7d"
    CancelURL := domain ++ "/cancel.html"
    AutomaticTax := { Enabled := true } }

/-- The loop `for i.Next() { p := i.Price(); price = p }` of
`createCheckoutSession`, run on the values the iterator has not yet yielded:
the value of `price` when the loop ends. -/
def priceLoop : List Price → Option Price → Option Price
  | [], price => price
  | p :: values, _ => priceLoop values (some p)

/-- The function `createCheckoutSession` of `src/handler.go`. -/
def createCheckoutSession (V : Vendor) (r : Request) : Run :=
  if r.Method ≠ "POST" then
    { trace := [.httpError (StatusText StatusMethodNotAllowed) StatusMethodNotAllowed]
      panicked := false }
  else
    let lookup_key := r.PostFormValue "lookup_key"
    let domain := "https://go-stripe.vercel.app"
    let params : PriceListParams := { LookupKeys := [lookup_key] }
    let i : Iter := { cur := none, values := V.priceList params }
    let t1 := [Effect.priceList params]
    let (ok, i) := i.Next
    if !ok then
      { trace := t1 ++
          [.logPrintf (">>>>>>>>>>>>>>>>>>>>>>>>>>> Add a price lookup key to checkout.html " ++
              "line 27 for the demo <<<<<<<<<<<<<<<<<<<<<<<<") [],
           .httpError "Price not found" StatusBadRequest]
        panicked := false }
    else
      -- var price *stripe.Price
      let price : Option Price := priceLoop i.values none
      match price with
      | none => { trace := t1, panicked := true }
      | some price =>
        let checkoutParams := checkoutParamsFor domain price
        let t2 := t1 ++ [Effect.sessionNew checkoutParams]
        match V.sessionNew checkoutParams with
        | .error err =>
          { trace := t2 ++
              [.logPrintf "session.New: %v" [err],
               .httpError "Failed to create checkout session" StatusInternalServerError]
            panicked := false }
        | .ok s =>
          { trace := t2 ++ [.httpRedirect s.URL StatusSeeOther], panicked := false }

/-- The function `createPortalSession` of `src/handler.go`.  The portal URL is
logged before the error check; on an error the SDK returns a session whose
fields are empty. -/
def createPortalSession (V : Vendor) (r : Request) : Run :=
  let domain := "https://go-stripe.vercel.app/"
  let sessionId := r.PostFormValue "session_id"
  let t1 := [Effect.fmtPrint sessionId, Effect.sessionGet sessionId]
  match V.sessionGet sessionId with
  | .error err =>
    { trace := t1 ++
        [.httpError err StatusInternalServerError, .logPrintf "session.Get: %v" [err]]
      panicked := false }
  | .ok s =>
    -- Authenticate your user.
    match s.Customer with
    | none => { trace := t1, panicked := true }
    | some customer =>
      let params : BillingPortalSessionParams := { Customer := customer.ID, ReturnURL := domain }
      let t2 := t1 ++ [Effect.portalsessionNew params]
      match V.portalsessionNew params with
      | .error err =>
        { trace := t2 ++
            [.logPrintf "ps.New: %v" [""],
             .httpError err StatusInternalServerError, .logPrintf "ps.New: %v" [err]]
          panicked := false }
      | .ok ps =>
        { trace := t2 ++
            [.logPrintf "ps.New: %v" [ps.URL], .httpRedirect ps.URL StatusSeeOther]
          panicked := false }

/-- The limit `MaxBodyBytes` of `handleWebhook`. -/
def MaxBodyBytes : Nat := 65536

/-- One recognized arm of the event-type switch of `handleWebhook`: decode
`event.Data.Raw` into a subscription and log its ID with `format`; on a decoding
error write 400 and return. -/
def subscriptionCase (V : Vendor) (event : Event) (format : String) : Step :=
  match event.Data with
  | none => { trace := [], exit := .panic }
  | some data =>
    match V.jsonUnmarshal data.Raw with
    | .error err =>
      { trace :=
          [.jsonUnmarshal data.Raw,
           .stderr "Error parsing webhook JSON: %v\n" [err],
           .writeHeader StatusBadRequest]
        exit := .ret }
    | .ok subscription =>
      { trace := [.jsonUnmarshal data.Raw, .logPrintf format [subscription.ID]]
        exit := .next }

/-- The event-type switch of `handleWebhook`. -/
def eventSwitch (V : Vendor) (event : Event) : Step :=
  if event.Type_ = "customer.subscription.deleted" then
    subscriptionCase V event "Subscription deleted for %d."
  else if event.Type_ = "customer.subscription.updated" then
    subscriptionCase V event "Subscription updated for %d."
  else if event.Type_ = "customer.subscription.created" then
    subscriptionCase V event "Subscription created for %d."
  else if event.Type_ = "customer.subscription.trial_will_end" then
    subscriptionCase V event "Subscription trial will end for %d."
  else if event.Type_ = "entitlements.active_entitlement_summary.updated" then
    subscriptionCase V event "Active entitlement summary updated for %d."
  else
    { trace := [.stderr "Unhandled event type: %s\n" [event.Type_]], exit := .next }

/-- The function `handleWebhook` of `src/handler.go`. -/
def handleWebhook (V : Vendor) (req : Request) : Run :=
  match readAllMaxBytes req MaxBodyBytes with
  | .error err =>
    { trace :=
        [.stderr "Error reading request body: %v\n" [err],
         .writeHeader StatusServiceUnavailable]
      panicked := false }
  | .ok payload =>
    let endpointSecret := "whsec_12345"
    let signatureHeader := req.HeaderGet "Stripe-Signature"
    let t1 := [Effect.ConstructEvent payload signatureHeader endpointSecret]
    match V.ConstructEvent payload signatureHeader endpointSecret with
    | .error err =>
      { trace := t1 ++
          [.stderr "⚠️  Webhook signature verification failed. %v\n" [err],
           .writeHeader StatusBadRequest]
        panicked := false }
    | .ok event =>
      -- Unmarshal the event data into an appropriate struct depending on its Type
      let sw := eventSwitch V event
      match sw.exit with
      | .panic => { trace := t1 ++ sw.trace, panicked := true }
      | .ret => { trace := t1 ++ sw.trace, panicked := false }
      | .next => { trace := t1 ++ sw.trace ++ [.writeHeader StatusOK], panicked := false }

/-- The function `Handler` of `src/handler.go`: dispatch on `r.URL.Path`. -/
def Handler (V : Vendor) (r : Request) : Run :=
  if r.Path = "/create-checkout-session" then createCheckoutSession V r
  else if r.Path = "/create-portal-session" then createPortalSession V r
  else if r.Path = "/webhook" then handleWebhook V r
  else { trace := [.httpNotFound], panicked := false }

end HandlerGo

/-! ## Event types -/

/-- The five event types that the switch of `handleWebhook` recognizes. -/
def recognizedEventTypes : List String :=
  ["customer.subscription.created", "customer.subscription.updated",
   "customer.subscription.deleted", "customer.subscription.trial_will_end",
   "entitlements.active_entitlement_summary.updated"]

end GoStripe

namespace GoStripe

/-- The calls to the Stripe API a run made, in order. -/
def Run.vendorCalls (r : Run) : List Effect := r.trace.filter Effect.isVendorCall

/-! ## Concrete scenarios

A vendor and requests on which the handlers are evaluated. -/

/-- The bytes of the JSON text `{"id":5}`: an object whose `id` is a number. -/
def rawIdNumber : List UInt8 := [123, 34, 105, 100, 34, 58, 53, 125]

/-- The bytes of the JSON text `{"id":"s"}`: an object whose `id` is a string. -/
def rawIdString : List UInt8 := [123, 34, 105, 100, 34, 58, 34, 115, 34, 125]

/-- A vendor account with two lookup keys, one completed and one open checkout
session, and one customer.  `ConstructEvent` accepts three signature headers,
each standing for a vendor-signed payload with a different event. -/
def sampleVendor : Vendor :=
  { priceList := fun params =>
      if params.LookupKeys = ["starter"] then [{ ID := "price_9" }]
      else if params.LookupKeys = ["pro_monthly"] then [{ ID := "price_1" }, { ID := "price_2" }]
      else []
    sessionNew := fun params =>
      if params.Mode = "subscription" then
        .ok { ID := "cs_test_a1", URL := "https://checkout.stripe.com/c/pay/cs_test_a1",
              Customer := none }
      else .error "invalid mode"
    sessionGet := fun id =>
      if id = "cs_test_done" then
        .ok { ID := id, URL := "", Customer := some { ID := "cus_1" } }
      else if id = "cs_test_open" then
        .ok { ID := id, URL := "https://checkout.stripe.com/c/pay/cs_test_open",
              Customer := none }
      else .error "No such checkout.session"
    portalsessionNew := fun params =>
      if params.Customer = "cus_1" then .ok { URL := "https://billing.stripe.com/p/session/x" }
      else .error "No such customer"
    ConstructEvent := fun _ header _ =>
      if header = "t=1,v1=aa" then
        .ok { Type_ := "customer.subscription.deleted", Data := some { Raw := rawIdNumber } }
      else if header = "t=1,v1=bb" then
        .ok { Type_ := "customer.subscription.updated", Data := some { Raw := rawIdString } }
      else if header = "t=1,v1=cc" then
        .ok { Type_ := "customer.subscription.created", Data := none }
      else .error "webhook had no valid signature"
    jsonUnmarshal := fun raw =>
      if raw = rawIdString then .ok { ID := "s" }
      else .error "json: cannot unmarshal number into Go struct field .id of type string" }

/-- A form request with one field. -/
def formRequest (method path key value : String) : Request :=
  { Method := method, Path := path, PostForm := [(key, value)], Header := [],
    Body := [], BodyErr := none }

/-- A webhook delivery with the given body and signature header. -/
def webhookRequest (body : List UInt8) (signature : String) : Request :=
  { Method := "POST", Path := "/webhook", PostForm := [],
    Header := [("Stripe-Signature", signature)], Body := body, BodyErr := none }

end GoStripe

namespace GoStripe

/-! ## Theorems -/

/-- C8: a request to `/create-checkout-session` whose method is not `POST` is
answered with 405 by both files, and no call to the Stripe API is made, whatever
the form holds. -/
theorem C8_non_post_checkout_is_405 (V : Vendor) (r : Request)
    (hpath : r.Path = "/create-checkout-session") (hmethod : r.Method ≠ "POST") :
    (ApiIndex.Handler V r =
        { trace := [.httpError "Method Not Allowed" 405], panicked := false }
      ∧ (ApiIndex.Handler V r).statuses = [405]
      ∧ (ApiIndex.Handler V r).vendorCalls = [])
    ∧ (HandlerGo.Handler V r =
        { trace := [.httpError "Method Not Allowed" 405], panicked := false }
      ∧ (HandlerGo.Handler V r).statuses = [405]
      ∧ (HandlerGo.Handler V r).vendorCalls = []) := by
  have h1 : ApiIndex.Handler V r =
      { trace := [.httpError "Method Not Allowed" 405], panicked := false } := by
    simp [ApiIndex.Handler, hpath, ApiIndex.createCheckoutSession, hmethod, StatusText,
      StatusMethodNotAllowed]
  have h2 : HandlerGo.Handler V r =
      { trace := [.httpError "Method Not Allowed" 405], panicked := false } := by
    simp [HandlerGo.Handler, hpath, HandlerGo.createCheckoutSession, hmethod, StatusText,
      StatusMethodNotAllowed]
  rw [h1, h2]
  simp [Run.statuses, statusesFrom, Run.vendorCalls, Effect.isVendorCall]

/-- Witness of C8 on a `PUT` request whose form carries a valid lookup key. -/
theorem C8_non_post_checkout_is_405_witness :
    (ApiIndex.Handler sampleVendor
        (formRequest "PUT" "/create-checkout-session" "lookup_key" "starter")).statuses = [405]
    ∧ (HandlerGo.Handler sampleVendor
        (formRequest "PUT" "/create-checkout-session" "lookup_key" "starter")).statuses = [405] :=
  have h := C8_non_post_checkout_is_405 sampleVendor
    (formRequest "PUT" "/create-checkout-session" "lookup_key" "starter") rfl (by decide)
  ⟨h.1.2.1, h.2.2.1⟩

end GoStripe

namespace GoStripe

/-- C4: for a `POST` request whose lookup key yields no price (the first
`Next()` of the iterator is false), both files answer 400 with the message
`Price not found`; the price lookup is the only call to the Stripe API, nothing
is submitted to `session.New` and no redirect is issued. -/
theorem C4_unknown_lookup_key_is_400 (V : Vendor) (r : Request)
    (hpost : r.Method = "POST")
    (hnone : V.priceList { LookupKeys := [r.PostFormValue "lookup_key"] } = []) :
    ((ApiIndex.createCheckoutSession V r).statuses = [400]
      ∧ (ApiIndex.createCheckoutSession V r).errorBodies = ["Price not found"]
      ∧ (ApiIndex.createCheckoutSession V r).vendorCalls =
          [.priceList { LookupKeys := [r.PostFormValue "lookup_key"] }]
      ∧ (ApiIndex.createCheckoutSession V r).submitted = []
      ∧ (ApiIndex.createCheckoutSession V r).locations = []
      ∧ (ApiIndex.createCheckoutSession V r).panicked = false)
    ∧ ((HandlerGo.createCheckoutSession V r).statuses = [400]
      ∧ (HandlerGo.createCheckoutSession V r).errorBodies = ["Price not found"]
      ∧ (HandlerGo.createCheckoutSession V r).vendorCalls =
          [.priceList { LookupKeys := [r.PostFormValue "lookup_key"] }]
      ∧ (HandlerGo.createCheckoutSession V r).submitted = []
      ∧ (HandlerGo.createCheckoutSession V r).locations = []
      ∧ (HandlerGo.createCheckoutSession V r).panicked = false) := by
  constructor
  · simp [ApiIndex.createCheckoutSession, hpost, hnone, Iter.Next, Run.statuses, statusesFrom,
      Run.errorBodies, Run.vendorCalls, Run.submitted, Run.locations, Effect.isVendorCall,
      StatusBadRequest]
  · simp [HandlerGo.createCheckoutSession, hpost, hnone, Iter.Next, Run.statuses, statusesFrom,
      Run.errorBodies, Run.vendorCalls, Run.submitted, Run.locations, Effect.isVendorCall,
      StatusBadRequest]

/-- Witness of C4 on a `POST` request with a lookup key the vendor does not know. -/
theorem C4_unknown_lookup_key_is_400_witness :
    (formRequest "POST" "/create-checkout-session" "lookup_key" "nope").Method = "POST"
    ∧ (ApiIndex.createCheckoutSession sampleVendor
        (formRequest "POST" "/create-checkout-session" "lookup_key" "nope")).statuses = [400]
    ∧ (HandlerGo.createCheckoutSession sampleVendor
        (formRequest "POST" "/create-checkout-session" "lookup_key" "nope")).statuses = [400] :=
  have h := C4_unknown_lookup_key_is_400 sampleVendor
    (formRequest "POST" "/create-checkout-session" "lookup_key" "nope") rfl (by decide)
  ⟨rfl, h.1.1, h.2.1⟩

/-- C3: when the request body is longer than 65536 bytes the capped read fails
and both files answer 503 without calling `webhook.ConstructEvent`; the run
depends neither on the vendor nor on the `Stripe-Signature` header. -/
theorem C3_oversized_body_is_503 (V : Vendor) (req : Request)
    (hlen : 65536 < req.Body.length) :
    (ApiIndex.handleWebhook V req =
        { trace := [.stderr "Error reading request body: %v\n" ["http: request body too large"],
                    .writeHeader 503]
          panicked := false }
      ∧ (ApiIndex.handleWebhook V req).statuses = [503]
      ∧ ∀ e ∈ (ApiIndex.handleWebhook V req).trace, e.isConstructEvent = false)
    ∧ (HandlerGo.handleWebhook V req =
        { trace := [.stderr "Error reading request body: %v\n" ["http: request body too large"],
                    .writeHeader 503]
          panicked := false }
      ∧ (HandlerGo.handleWebhook V req).statuses = [503]
      ∧ ∀ e ∈ (HandlerGo.handleWebhook V req).trace, e.isConstructEvent = false) := by
  have hread : ∀ n, n = 65536 →
      readAllMaxBytes req n = .error "http: request body too large" := by
    intro n hn
    subst hn
    simp [readAllMaxBytes, hlen]
  have h1 : ApiIndex.handleWebhook V req =
      { trace := [.stderr "Error reading request body: %v\n" ["http: request body too large"],
                  .writeHeader 503]
        panicked := false } := by
    simp [ApiIndex.handleWebhook, hread ApiIndex.MaxBodyBytes rfl, StatusServiceUnavailable]
  have h2 : HandlerGo.handleWebhook V req =
      { trace := [.stderr "Error reading request body: %v\n" ["http: request body too large"],
                  .writeHeader 503]
        panicked := false } := by
    simp [HandlerGo.handleWebhook, hread HandlerGo.MaxBodyBytes rfl, StatusServiceUnavailable]
  rw [h1, h2]
  simp [Run.statuses, statusesFrom, Effect.isConstructEvent]

/-- Witness of C3 on a body of 65537 bytes sent with a signature header that the
vendor would accept. -/
theorem C3_oversized_body_is_503_witness :
    65536 < (webhookRequest (List.replicate 65537 0) "t=1,v1=bb").Body.length
    ∧ (ApiIndex.handleWebhook sampleVendor
        (webhookRequest (List.replicate 65537 0) "t=1,v1=bb")).statuses = [503]
    ∧ (HandlerGo.handleWebhook sampleVendor
        (webhookRequest (List.replicate 65537 0) "t=1,v1=bb")).statuses = [503] :=
  have hlen : 65536 < (webhookRequest (List.replicate 65537 0) "t=1,v1=bb").Body.length := by
    show 65536 < (List.replicate 65537 (0 : UInt8)).length
    rw [List.length_replicate]
    decide
  have h := C3_oversized_body_is_503 sampleVendor
    (webhookRequest (List.replicate 65537 0) "t=1,v1=bb") hlen
  ⟨hlen, h.1.2.1, h.2.2.1⟩

/-- C1: when the body was read and `webhook.ConstructEvent` rejects the payload,
the signature header and the endpoint secret, both files answer 400 and no arm
of the event-type switch runs, whatever the payload is. -/
theorem C1_rejected_event_is_400 (V : Vendor) (req : Request) (payload : List UInt8)
    (err : String)
    (hread : readAllMaxBytes req 65536 = .ok payload)
    (hsig : V.ConstructEvent payload (req.HeaderGet "Stripe-Signature") "whsec_12345" =
      .error err) :
    ((ApiIndex.handleWebhook V req).statuses = [400]
      ∧ (ApiIndex.handleWebhook V req).panicked = false
      ∧ ∀ e ∈ (ApiIndex.handleWebhook V req).trace, e.isSwitchEntry = false)
    ∧ ((HandlerGo.handleWebhook V req).statuses = [400]
      ∧ (HandlerGo.handleWebhook V req).panicked = false
      ∧ ∀ e ∈ (HandlerGo.handleWebhook V req).trace, e.isSwitchEntry = false) := by
  have h1 : ApiIndex.handleWebhook V req =
      { trace := [.ConstructEvent payload (req.HeaderGet "Stripe-Signature") "whsec_12345",
                  .stderr "⚠️  Webhook signature verification failed. %v\n" [err],
                  .writeHeader 400]
        panicked := false } := by
    simp [ApiIndex.handleWebhook, ApiIndex.MaxBodyBytes, hread, hsig, StatusBadRequest]
  have h2 : HandlerGo.handleWebhook V req =
      { trace := [.ConstructEvent payload (req.HeaderGet "Stripe-Signature") "whsec_12345",
                  .stderr "⚠️  Webhook signature verification failed. %v\n" [err],
                  .writeHeader 400]
        panicked := false } := by
    simp [HandlerGo.handleWebhook, HandlerGo.MaxBodyBytes, hread, hsig, StatusBadRequest]
  rw [h1, h2]
  simp [Run.statuses, statusesFrom, Effect.isSwitchEntry]

/-- Witness of C1 on a delivery whose payload is a well-formed subscription
object and whose signature header the vendor rejects. -/
theorem C1_rejected_event_is_400_witness :
    readAllMaxBytes (webhookRequest rawIdString "t=1,v1=00") 65536 = .ok rawIdString
    ∧ (ApiIndex.handleWebhook sampleVendor (webhookRequest rawIdString "t=1,v1=00")).statuses
        = [400]
    ∧ (HandlerGo.handleWebhook sampleVendor (webhookRequest rawIdString "t=1,v1=00")).statuses
        = [400] :=
  have hread : readAllMaxBytes (webhookRequest rawIdString "t=1,v1=00") 65536 = .ok rawIdString :=
    rfl
  have h := C1_rejected_event_is_400 sampleVendor (webhookRequest rawIdString "t=1,v1=00")
    rawIdString "webhook had no valid signature" hread rfl
  ⟨hread, h.1.1, h.2.1⟩

end GoStripe

namespace GoStripe

/-- C5: in `src/api/index.go`, for a `POST` request whose lookup key yields at
least one price, exactly one checkout request is submitted to `session.New`:
mode `subscription`, one line item with the ID of the first price yielded and
quantity 1, billing-cycle anchor 1672531200, the fixed success and cancel URLs,
automatic tax enabled.  When `session.New` succeeds the answer is 303 with
`Location` the URL of the returned session; when it fails the answer is 500. -/
theorem C5_checkout_request_and_redirect (V : Vendor) (r : Request) (p : Price)
    (rest : List Price)
    (hpost : r.Method = "POST")
    (hfirst : V.priceList { LookupKeys := [r.PostFormValue "lookup_key"] } = p :: rest) :
    (ApiIndex.createCheckoutSession V r).submitted =
        [{ Mode := "subscription"
           LineItems := [{ Price := p.ID, Quantity := 1 }]
           SubscriptionData := { BillingCycleAnchor := 1672531200 }
           SuccessURL :=
             "https://go-stripe.vercel.app/success.html?session_id=\x7bCHECKOUT_SESSION_ID\x7d"
           CancelURL := "https://go-stripe.vercel.app/cancel.html"
           AutomaticTax := { Enabled := true } }]
    ∧ (ApiIndex.createCheckoutSession V r).panicked = false
    ∧ (∀ s : CheckoutSession,
        V.sessionNew
          { Mode := "subscription"
            LineItems := [{ Price := p.ID, Quantity := 1 }]
            SubscriptionData := { BillingCycleAnchor := 1672531200 }
            SuccessURL :=
              "https://go-stripe.vercel.app/success.html?session_id=\x7bCHECKOUT_SESSION_ID\x7d"
            CancelURL := "https://go-stripe.vercel.app/cancel.html"
            AutomaticTax := { Enabled := true } } = .ok s →
        (ApiIndex.createCheckoutSession V r).statuses = [303]
        ∧ (ApiIndex.createCheckoutSession V r).locations = [s.URL])
    ∧ (∀ err : String,
        V.sessionNew
          { Mode := "subscription"
            LineItems := [{ Price := p.ID, Quantity := 1 }]
            SubscriptionData := { BillingCycleAnchor := 1672531200 }
            SuccessURL :=
              "https://go-stripe.vercel.app/success.html?session_id=\x7bCHECKOUT_SESSION_ID\x7d"
            CancelURL := "https://go-stripe.vercel.app/cancel.html"
            AutomaticTax := { Enabled := true } } = .error err →
        (ApiIndex.createCheckoutSession V r).statuses = [500]
        ∧ (ApiIndex.createCheckoutSession V r).locations = []) := by
  have hparams : ApiIndex.checkoutParamsFor "https://go-stripe.vercel.app" p =
      { Mode := "subscription"
        LineItems := [{ Price := p.ID, Quantity := 1 }]
        SubscriptionData := { BillingCycleAnchor := 1672531200 }
        SuccessURL :=
          "https://go-stripe.vercel.app/success.html?session_id=\x7bCHECKOUT_SESSION_ID\x7d"
        CancelURL := "https://go-stripe.vercel.app/cancel.html"
        AutomaticTax := { Enabled := true } } := by
    simp [ApiIndex.checkoutParamsFor, CheckoutSessionModeSubscription]
  refine ⟨?_, ?_, ?_, ?_⟩
  · simp only [ApiIndex.createCheckoutSession, hpost, hfirst, Iter.Next, Iter.Price, hparams]
    cases hs : V.sessionNew _ <;> simp [Run.submitted]
  · simp only [ApiIndex.createCheckoutSession, hpost, hfirst, Iter.Next, Iter.Price, hparams]
    cases hs : V.sessionNew _ <;> simp
  · intro s hs
    simp [ApiIndex.createCheckoutSession, hpost, hfirst, Iter.Next, Iter.Price, hparams, hs,
      Run.statuses, statusesFrom, Run.locations, StatusSeeOther]
  · intro err hs
    simp [ApiIndex.createCheckoutSession, hpost, hfirst, Iter.Next, Iter.Price, hparams, hs,
      Run.statuses, statusesFrom, Run.locations, StatusInternalServerError]

/-- Witness of C5 on a lookup key that yields two prices: the first one is
submitted and the answer is the redirect to the checkout page. -/
theorem C5_checkout_request_and_redirect_witness :
    (formRequest "POST" "/create-checkout-session" "lookup_key" "pro_monthly").Method = "POST"
    ∧ (ApiIndex.createCheckoutSession sampleVendor
        (formRequest "POST" "/create-checkout-session" "lookup_key" "pro_monthly")).submitted =
        [{ Mode := "subscription"
           LineItems := [{ Price := "price_1", Quantity := 1 }]
           SubscriptionData := { BillingCycleAnchor := 1672531200 }
           SuccessURL :=
             "https://go-stripe.vercel.app/success.html?session_id=\x7bCHECKOUT_SESSION_ID\x7d"
           CancelURL := "https://go-stripe.vercel.app/cancel.html"
           AutomaticTax := { Enabled := true } }]
    ∧ (ApiIndex.createCheckoutSession sampleVendor
        (formRequest "POST" "/create-checkout-session" "lookup_key" "pro_monthly")).statuses
        = [303]
    ∧ (ApiIndex.createCheckoutSession sampleVendor
        (formRequest "POST" "/create-checkout-session" "lookup_key" "pro_monthly")).locations
        = ["https://checkout.stripe.com/c/pay/cs_test_a1"] :=
  have h := C5_checkout_request_and_redirect sampleVendor
    (formRequest "POST" "/create-checkout-session" "lookup_key" "pro_monthly")
    { ID := "price_1" } [{ ID := "price_2" }] rfl rfl
  have h303 := h.2.2.1
    { ID := "cs_test_a1", URL := "https://checkout.stripe.com/c/pay/cs_test_a1",
      Customer := none } rfl
  ⟨rfl, h.1, h303.1, h303.2⟩

end GoStripe

namespace GoStripe

/-- C2, counterexample: a delivery whose body is read, whose signature the
vendor accepts and whose event has the recognized type
`customer.subscription.deleted`, but whose raw data `json.Unmarshal` cannot
decode into a subscription, is answered with 400 by both files, not with 200. -/
theorem C2_counterexample_undecodable_data :
    readAllMaxBytes (webhookRequest rawIdNumber "t=1,v1=aa") 65536 = .ok rawIdNumber
    ∧ sampleVendor.ConstructEvent rawIdNumber
        ((webhookRequest rawIdNumber "t=1,v1=aa").HeaderGet "Stripe-Signature") "whsec_12345" =
        .ok { Type_ := "customer.subscription.deleted", Data := some { Raw := rawIdNumber } }
    ∧ "customer.subscription.deleted" ∈ recognizedEventTypes
    ∧ (ApiIndex.handleWebhook sampleVendor (webhookRequest rawIdNumber "t=1,v1=aa")).statuses
        = [400]
    ∧ (HandlerGo.handleWebhook sampleVendor (webhookRequest rawIdNumber "t=1,v1=aa")).statuses
        = [400] := by
  refine ⟨rfl, rfl, by decide, by decide, by decide⟩

/-- C2, amended: for a delivery whose body was read and whose signature
verified, both files answer 200 when the event type is not one of the five
recognized ones, and, for a recognized type whose event carries data, 200 when
`json.Unmarshal` decodes the raw data into a subscription and 400 when it does
not. -/
theorem C2_verified_event_is_200_unless_undecodable (V : Vendor) (req : Request)
    (payload : List UInt8) (event : Event)
    (hread : readAllMaxBytes req 65536 = .ok payload)
    (hsig : V.ConstructEvent payload (req.HeaderGet "Stripe-Signature") "whsec_12345" =
      .ok event) :
    (event.Type_ ∉ recognizedEventTypes →
      ((ApiIndex.handleWebhook V req).statuses = [200]
        ∧ (ApiIndex.handleWebhook V req).panicked = false)
      ∧ ((HandlerGo.handleWebhook V req).statuses = [200]
        ∧ (HandlerGo.handleWebhook V req).panicked = false))
    ∧ (∀ (data : EventData) (subscription : Subscription),
      event.Type_ ∈ recognizedEventTypes → event.Data = some data →
      V.jsonUnmarshal data.Raw = .ok subscription →
      ((ApiIndex.handleWebhook V req).statuses = [200]
        ∧ (ApiIndex.handleWebhook V req).panicked = false)
      ∧ ((HandlerGo.handleWebhook V req).statuses = [200]
        ∧ (HandlerGo.handleWebhook V req).panicked = false))
    ∧ (∀ (data : EventData) (err : String),
      event.Type_ ∈ recognizedEventTypes → event.Data = some data →
      V.jsonUnmarshal data.Raw = .error err →
      ((ApiIndex.handleWebhook V req).statuses = [400]
        ∧ (ApiIndex.handleWebhook V req).panicked = false)
      ∧ ((HandlerGo.handleWebhook V req).statuses = [400]
        ∧ (HandlerGo.handleWebhook V req).panicked = false)) := by
  refine ⟨?_, ?_, ?_⟩
  · intro hty
    simp only [recognizedEventTypes, List.mem_cons, List.mem_singleton, List.not_mem_nil,
      or_false, not_or] at hty
    obtain ⟨h1, h2, h3, h4, h5⟩ := hty
    simp [ApiIndex.handleWebhook, ApiIndex.MaxBodyBytes, HandlerGo.handleWebhook,
      HandlerGo.MaxBodyBytes, hread, hsig, ApiIndex.eventSwitch, HandlerGo.eventSwitch,
      h1, h2, h3, h4, h5, Run.statuses, statusesFrom, StatusOK]
  · intro data subscription hty hdata hdec
    simp only [recognizedEventTypes, List.mem_cons, List.mem_singleton, List.not_mem_nil,
      or_false] at hty
    rcases hty with h | h | h | h | h <;>
      simp [ApiIndex.handleWebhook, ApiIndex.MaxBodyBytes, HandlerGo.handleWebhook,
        HandlerGo.MaxBodyBytes, hread, hsig, ApiIndex.eventSwitch, HandlerGo.eventSwitch,
        ApiIndex.subscriptionCase, HandlerGo.subscriptionCase, h, hdata, hdec,
        Run.statuses, statusesFrom, StatusOK]
  · intro data err hty hdata hdec
    simp only [recognizedEventTypes, List.mem_cons, List.mem_singleton, List.not_mem_nil,
      or_false] at hty
    rcases hty with h | h | h | h | h <;>
      simp [ApiIndex.handleWebhook, ApiIndex.MaxBodyBytes, HandlerGo.handleWebhook,
        HandlerGo.MaxBodyBytes, hread, hsig, ApiIndex.eventSwitch, HandlerGo.eventSwitch,
        ApiIndex.subscriptionCase, HandlerGo.subscriptionCase, h, hdata, hdec,
        Run.statuses, statusesFrom, StatusBadRequest]

/-- Witness of the amended C2 on a verified `customer.subscription.updated`
event whose raw data decodes: both files answer 200. -/
theorem C2_verified_event_is_200_unless_undecodable_witness :
    readAllMaxBytes (webhookRequest rawIdString "t=1,v1=bb") 65536 = .ok rawIdString
    ∧ (ApiIndex.handleWebhook sampleVendor (webhookRequest rawIdString "t=1,v1=bb")).statuses
        = [200]
    ∧ (HandlerGo.handleWebhook sampleVendor (webhookRequest rawIdString "t=1,v1=bb")).statuses
        = [200] :=
  have hread : readAllMaxBytes (webhookRequest rawIdString "t=1,v1=bb") 65536 = .ok rawIdString :=
    rfl
  have h := C2_verified_event_is_200_unless_undecodable sampleVendor
    (webhookRequest rawIdString "t=1,v1=bb") rawIdString
    { Type_ := "customer.subscription.updated", Data := some { Raw := rawIdString } } hread rfl
  have h200 := h.2.1 { Raw := rawIdString } { ID := "s" } (by decide) rfl rfl
  ⟨hread, h200.1.1, h200.2.1⟩

end GoStripe

namespace GoStripe

/-- C6, evaluation at the failing input: for a lookup key that resolves to a
price and a session created with ID `cs_test_a1`, the success URL submitted to
`session.New` in `src/api/index.go` still holds the literal placeholder, the
redirect goes to the URL of the session, and the URL in which the placeholder is
replaced by the session ID appears in no effect of the run. -/
theorem C6_placeholder_left_in_emitted_url :
    ApiIndex.createCheckoutSession sampleVendor
        (formRequest "POST" "/create-checkout-session" "lookup_key" "starter") =
      { trace :=
          [.priceList { LookupKeys := ["starter"] },
           .sessionNew
             { Mode := "subscription"
               LineItems := [{ Price := "price_9", Quantity := 1 }]
               SubscriptionData := { BillingCycleAnchor := 1672531200 }
               SuccessURL :=
                 "https://go-stripe.vercel.app/success.html?session_id=\x7bCHECKOUT_SESSION_ID\x7d"
               CancelURL := "https://go-stripe.vercel.app/cancel.html"
               AutomaticTax := { Enabled := true } },
           .httpRedirect "https://checkout.stripe.com/c/pay/cs_test_a1" 303]
        panicked := false }
    ∧ stringsReplaceAll
        "https://go-stripe.vercel.app/success.html?session_id=\x7bCHECKOUT_SESSION_ID\x7d"
        "\x7bCHECKOUT_SESSION_ID\x7d" "cs_test_a1" =
      "https://go-stripe.vercel.app/success.html?session_id=cs_test_a1"
    ∧ (ApiIndex.createCheckoutSession sampleVendor
        (formRequest "POST" "/create-checkout-session" "lookup_key" "starter")).submitted.map
          (fun params => params.SuccessURL) ≠
      ["https://go-stripe.vercel.app/success.html?session_id=cs_test_a1"] := by
  refine ⟨by decide, by decide, by decide⟩

/-- C7, evaluation at the failing input: `session.Get` succeeds with a checkout
session that has no customer (an open session), and `createPortalSession` of
`src/api/index.go` panics on `s.Customer.ID` without writing any status. -/
theorem C7_portal_session_without_customer_panics :
    sampleVendor.sessionGet "cs_test_open" =
      .ok { ID := "cs_test_open", URL := "https://checkout.stripe.com/c/pay/cs_test_open",
            Customer := none }
    ∧ ApiIndex.createPortalSession sampleVendor
        (formRequest "POST" "/create-portal-session" "session_id" "cs_test_open") =
      { trace := [.slogInfo "createPortalSession" ["sessionId", "cs_test_open"],
                  .sessionGet "cs_test_open"]
        panicked := true }
    ∧ (ApiIndex.createPortalSession sampleVendor
        (formRequest "POST" "/create-portal-session" "session_id" "cs_test_open")).statuses
        = [] := by
  refine ⟨rfl, by decide, by decide⟩

/-- C9, evaluation at the failing inputs: `Handler` of `src/api/index.go` ends
without writing any status on `/create-portal-session` when the checkout session
has no customer, and on `/webhook` when a verified event of a recognized type
carries no data. -/
theorem C9_routes_that_write_no_status :
    ((ApiIndex.Handler sampleVendor
        (formRequest "POST" "/create-portal-session" "session_id" "cs_test_open")).panicked
        = true
      ∧ (ApiIndex.Handler sampleVendor
        (formRequest "POST" "/create-portal-session" "session_id" "cs_test_open")).statuses
        = [])
    ∧ ((ApiIndex.Handler sampleVendor (webhookRequest [] "t=1,v1=cc")).panicked = true
      ∧ (ApiIndex.Handler sampleVendor (webhookRequest [] "t=1,v1=cc")).statuses = []) := by
  refine ⟨⟨by decide, by decide⟩, by decide, by decide⟩

/-- C10, evaluation at the failing inputs: when the lookup key yields exactly
one price, `createCheckoutSession` of `src/handler.go` panics on `price.ID`
after the price lookup, while `src/api/index.go` submits that price and
redirects; when it yields two prices, `src/handler.go` submits the second and
`src/api/index.go` the first. -/
theorem C10_handler_go_differs_from_api_index :
    (sampleVendor.priceList { LookupKeys := ["starter"] } = [{ ID := "price_9" }]
      ∧ HandlerGo.createCheckoutSession sampleVendor
          (formRequest "POST" "/create-checkout-session" "lookup_key" "starter") =
        { trace := [.priceList { LookupKeys := ["starter"] }], panicked := true }
      ∧ (ApiIndex.createCheckoutSession sampleVendor
          (formRequest "POST" "/create-checkout-session" "lookup_key" "starter")).statuses
          = [303]
      ∧ (ApiIndex.createCheckoutSession sampleVendor
          (formRequest "POST" "/create-checkout-session" "lookup_key" "starter")).submitted.map
            (fun params => params.LineItems) = [[{ Price := "price_9", Quantity := 1 }]])
    ∧ (sampleVendor.priceList { LookupKeys := ["pro_monthly"] } =
          [{ ID := "price_1" }, { ID := "price_2" }]
      ∧ (HandlerGo.createCheckoutSession sampleVendor
          (formRequest "POST" "/create-checkout-session" "lookup_key" "pro_monthly")).submitted.map
            (fun params => params.LineItems) = [[{ Price := "price_2", Quantity := 1 }]]
      ∧ (ApiIndex.createCheckoutSession sampleVendor
          (formRequest "POST" "/create-checkout-session" "lookup_key" "pro_monthly")).submitted.map
            (fun params => params.LineItems) = [[{ Price := "price_1", Quantity := 1 }]]) := by
  refine ⟨⟨by decide, by decide, by decide, by decide⟩, by decide, by decide, by decide⟩

end GoStripe

namespace GoStripe

/-! ## Supporting facts

What holds on every input around the failing inputs of C7, C9 and C10. -/

/-- Every run of `createCheckoutSession` of `src/api/index.go` returns and
writes exactly one status. -/
theorem ApiIndex.createCheckoutSession_writes_one_status (V : Vendor) (r : Request) :
    (ApiIndex.createCheckoutSession V r).statuses.length = 1
    ∧ (ApiIndex.createCheckoutSession V r).panicked = false := by
  by_cases hm : r.Method = "POST"
  · cases hp : V.priceList { LookupKeys := [r.PostFormValue "lookup_key"] } with
    | nil => simp [ApiIndex.createCheckoutSession, hm, hp, Iter.Next, Run.statuses, statusesFrom]
    | cons p rest =>
      cases hs : V.sessionNew (ApiIndex.checkoutParamsFor "https://go-stripe.vercel.app" p) <;>
        simp [ApiIndex.createCheckoutSession, hm, hp, hs, Iter.Next, Iter.Price, Run.statuses,
          statusesFrom]
  · simp [ApiIndex.createCheckoutSession, hm, Run.statuses, statusesFrom]

/-- Every run of `createPortalSession` of `src/api/index.go` either panics
having written no status, or returns having written exactly one. -/
theorem ApiIndex.createPortalSession_status_count (V : Vendor) (r : Request) :
    (ApiIndex.createPortalSession V r).statuses.length =
      if (ApiIndex.createPortalSession V r).panicked then 0 else 1 := by
  cases hg : V.sessionGet (r.PostFormValue "session_id") with
  | error err => simp [ApiIndex.createPortalSession, hg, Run.statuses, statusesFrom]
  | ok s =>
    cases hc : s.Customer with
    | none => simp [ApiIndex.createPortalSession, hg, hc, Run.statuses, statusesFrom]
    | some customer =>
      cases hn : V.portalsessionNew
          { Customer := customer.ID, ReturnURL := "https://go-stripe.vercel.app/" } <;>
        simp [ApiIndex.createPortalSession, hg, hc, hn, Run.statuses, statusesFrom]

/-- Every run of `handleWebhook` of `src/api/index.go` either panics having
written no status, or returns having written exactly one. -/
theorem ApiIndex.handleWebhook_status_count (V : Vendor) (req : Request) :
    (ApiIndex.handleWebhook V req).statuses.length =
      if (ApiIndex.handleWebhook V req).panicked then 0 else 1 := by
  cases hr : readAllMaxBytes req ApiIndex.MaxBodyBytes with
  | error err => simp [ApiIndex.handleWebhook, hr, Run.statuses, statusesFrom]
  | ok payload =>
    cases hs : V.ConstructEvent payload (req.HeaderGet "Stripe-Signature") "whsec_12345" with
    | error err => simp [ApiIndex.handleWebhook, hr, hs, Run.statuses, statusesFrom]
    | ok event =>
      cases hd : event.Data with
      | none =>
        simp only [ApiIndex.handleWebhook, hr, hs, ApiIndex.eventSwitch,
          ApiIndex.subscriptionCase, hd]
        split_ifs <;> simp_all [Run.statuses, statusesFrom]
      | some data =>
        cases hu : V.jsonUnmarshal data.Raw <;>
          simp only [ApiIndex.handleWebhook, hr, hs, ApiIndex.eventSwitch,
            ApiIndex.subscriptionCase, hd, hu] <;>
          split_ifs <;> simp_all [Run.statuses, statusesFrom]

/-- In `src/api/index.go`, when `session.Get` fails `createPortalSession` answers
500 with the message of the error and does not call `portalsession.New`; when it
returns a session with a customer, the answer is 500 with the message of the
error if `portalsession.New` (called with that customer and the fixed return
URL) fails, and 303 to the URL of the portal session if it succeeds. -/
theorem ApiIndex.createPortalSession_with_customer (V : Vendor) (r : Request) :
    (∀ err : String, V.sessionGet (r.PostFormValue "session_id") = .error err →
      (ApiIndex.createPortalSession V r).statuses = [500]
      ∧ (ApiIndex.createPortalSession V r).errorBodies = [err]
      ∧ (ApiIndex.createPortalSession V r).vendorCalls =
          [.sessionGet (r.PostFormValue "session_id")])
    ∧ (∀ (s : CheckoutSession) (customer : Customer),
      V.sessionGet (r.PostFormValue "session_id") = .ok s → s.Customer = some customer →
      (ApiIndex.createPortalSession V r).vendorCalls =
          [.sessionGet (r.PostFormValue "session_id"),
           .portalsessionNew
             { Customer := customer.ID, ReturnURL := "https://go-stripe.vercel.app/" }]
      ∧ (∀ err : String,
          V.portalsessionNew
            { Customer := customer.ID, ReturnURL := "https://go-stripe.vercel.app/" } =
            .error err →
          (ApiIndex.createPortalSession V r).statuses = [500]
          ∧ (ApiIndex.createPortalSession V r).errorBodies = [err])
      ∧ (∀ ps : BillingPortalSession,
          V.portalsessionNew
            { Customer := customer.ID, ReturnURL := "https://go-stripe.vercel.app/" } = .ok ps →
          (ApiIndex.createPortalSession V r).statuses = [303]
          ∧ (ApiIndex.createPortalSession V r).locations = [ps.URL])) := by
  refine ⟨?_, ?_⟩
  · intro err hg
    simp [ApiIndex.createPortalSession, hg, Run.statuses, statusesFrom, Run.errorBodies,
      Run.vendorCalls, Effect.isVendorCall, StatusInternalServerError]
  · intro s customer hg hc
    refine ⟨?_, ?_, ?_⟩
    · cases hn : V.portalsessionNew
          { Customer := customer.ID, ReturnURL := "https://go-stripe.vercel.app/" } <;>
        simp [ApiIndex.createPortalSession, hg, hc, hn, Run.vendorCalls, Effect.isVendorCall]
    · intro err hn
      simp [ApiIndex.createPortalSession, hg, hc, hn, Run.statuses, statusesFrom,
        Run.errorBodies, StatusInternalServerError]
    · intro ps hn
      simp [ApiIndex.createPortalSession, hg, hc, hn, Run.statuses, statusesFrom,
        Run.locations, StatusSeeOther]

/-- In `src/handler.go`, a `POST` request whose lookup key yields exactly one
price makes `createCheckoutSession` panic right after the price lookup: the
second `Next()` is false, so `price` is still `nil` when `price.ID` is read. -/
theorem HandlerGo.createCheckoutSession_one_price_panics (V : Vendor) (r : Request) (p : Price) :
    r.Method = "POST" →
    V.priceList { LookupKeys := [r.PostFormValue "lookup_key"] } = [p] →
    HandlerGo.createCheckoutSession V r =
      { trace := [.priceList { LookupKeys := [r.PostFormValue "lookup_key"] }]
        panicked := true } := by
  intro hm hp
  simp [HandlerGo.createCheckoutSession, hm, hp, Iter.Next, HandlerGo.priceLoop]

/-- The one-price panic of `src/handler.go` on the lookup key `starter`. -/
theorem HandlerGo.createCheckoutSession_one_price_panics_witness :
    (formRequest "POST" "/create-checkout-session" "lookup_key" "starter").Method = "POST"
    ∧ (HandlerGo.createCheckoutSession sampleVendor
        (formRequest "POST" "/create-checkout-session" "lookup_key" "starter")).panicked = true :=
  have h := HandlerGo.createCheckoutSession_one_price_panics sampleVendor
    (formRequest "POST" "/create-checkout-session" "lookup_key" "starter") { ID := "price_9" }
    rfl rfl
  ⟨rfl, by rw [h]⟩

/-- The portal redirect of `src/api/index.go` on a completed checkout session. -/
theorem ApiIndex.createPortalSession_with_customer_witness :
    (ApiIndex.createPortalSession sampleVendor
        (formRequest "POST" "/create-portal-session" "session_id" "cs_test_done")).statuses
        = [303]
    ∧ (ApiIndex.createPortalSession sampleVendor
        (formRequest "POST" "/create-portal-session" "session_id" "cs_test_done")).locations
        = ["https://billing.stripe.com/p/session/x"] :=
  (((ApiIndex.createPortalSession_with_customer sampleVendor
    (formRequest "POST" "/create-portal-session" "session_id" "cs_test_done")).2
      { ID := "cs_test_done", URL := "", Customer := some { ID := "cus_1" } } { ID := "cus_1" }
      rfl rfl).2.2 { URL := "https://billing.stripe.com/p/session/x" } rfl)

end GoStripe
